import Mathlib

set_option maxRecDepth 16384

/-!
Shallow embedding of src/src/libs/video/VIDEO.C (DOS video adapter library).

The library detects one of ten text-mode adapters through a cascade of
probes, records a process-wide descriptor (adapter type, mono flag, buffer
base address), maps color attributes to monochrome attributes when needed,
and writes character/attribute cells directly into video memory.

Modelling conventions:
* machine integers are Nat (bytes, attributes) and Int (rows, columns,
  counts, which are C int and may be negative); bit operations use Nat
  bitwise operators; the (char) casts in the C source become mod 256;
* the hardware/BIOS environment that vid_init probes is a ProbeEnv record:
  one field per distinct external read the C code performs, with the
  port 3BA read sequence as a stream Nat -> Nat since the retrace loop
  reads it repeatedly;
* the memory-mapped writers are modelled by their write trace: each
  primitive returns the list of cells (byte offset, character byte,
  attribute byte) it stores, in program order; the module-level vid_mono
  flag is passed explicitly;
* the header video.h is not in the tree; the adapter type codes are pinned
  by the type_names array of VIDEO.C (vid_type_name indexes it by
  vid_adapter_type), and VID_COLS and the CP 437 box glyph codes are taken
  from the standard values the source comments describe (their concrete
  values never matter to the claims below).
-/

/-
==========================  Adapter type codes  ==========================
From type_names = {"MDA","Hercules","CGA","EGA","VGA","PGA","MCGA",
"Hercules Plus","InColor","ColorPlus"}, indexed by vid_adapter_type.
-/

def VID_MDA : Nat := 0
def VID_HERCULES : Nat := 1
def VID_CGA : Nat := 2
def VID_EGA : Nat := 3
def VID_VGA : Nat := 4
def VID_PGA : Nat := 5
def VID_MCGA : Nat := 6
def VID_HERCPLUS : Nat := 7
def VID_INCOLOR : Nat := 8
def VID_COLORPLUS : Nat := 9

/-- Screen width in text columns (VID_COLS of the missing video.h; the
standard 80-column text mode the source is written for). -/
def VID_COLS : Int := 80

/-- CP 437 single-line box glyphs (VID_BOX_H, VID_BOX_V, VID_BOX_TL,
VID_BOX_TR, VID_BOX_BL, VID_BOX_BR of the missing video.h; standard
CP 437 values - the claims depend only on which glyph goes where). -/
def VID_BOX_H : Nat := 0xC4

def VID_BOX_V : Nat := 0xB3

def VID_BOX_TL : Nat := 0xDA

def VID_BOX_TR : Nat := 0xBF

def VID_BOX_BL : Nat := 0xC0

def VID_BOX_BR : Nat := 0xD9

/-
==========================  Attribute mapping  ==========================
vid_map_attr of VIDEO.C lines 272-295.  vid_mono is passed explicitly
instead of being read from the module-level variable.
-/

/-- vid_map_attr: on non-mono adapters the identity; on mono adapters maps
a color attribute to the monochrome set, preserving the blink bit. -/
def vid_map_attr (vid_mono : Bool) (attr : Nat) : Nat :=
  if !vid_mono then attr
  else
    let blink := attr &&& 0x80
    let fg := attr &&& 0x0F
    let bg := (attr >>> 4) &&& 0x07
    let mapped :=
      if fg = 0 ∧ bg = 0 then 0x00
      else if bg ≠ 0 then 0x70
      else if fg &&& 0x08 ≠ 0 then 0x0F
      else if fg = 1 then 0x01
      else 0x07
    mapped ||| blink

/-- Modelled from the spec (section 4.2), for comparison with the source
function vid_map_attr: decompose attr into blink bit (bit 7), foreground
nibble (bits 0-3), background (bits 4-6); apply the five spec rules in
strict priority order; recombine with the original blink bit. -/
def map_attr_spec (attr : Nat) : Nat :=
  let blink := if attr.testBit 7 then 0x80 else 0
  let fg := attr % 16
  let bg := attr / 16 % 8
  let mapped :=
    if fg = 0 ∧ bg = 0 then 0x00
    else if bg ≠ 0 then 0x70
    else if fg.testBit 3 then 0x0F
    else if fg = 1 then 0x01
    else 0x07
  mapped ||| blink

/-
==========================  Adapter detection  ==========================
vid_init of VIDEO.C lines 92-238 plus detect_pga (lines 68-90), vid_set
(46-51) and vid_set_ex (55-60).  Every external read the code performs is
a field of ProbeEnv; the status port 3BA is read repeatedly in the
Hercules retrace loop, so it is a stream indexed by read number.
-/

/-- The hardware/BIOS replies vid_init can observe, one field per external
read:
* s1_al, s1_bl: AL and BL after INT 10h AH=1Ah (video state query);
* s2_bl, s2_bh: BL and BH after INT 10h AH=12h BL=10h (EGA alternate
  select);
* pga_stat, pga_cmd: the bytes at C600:0300 and C600:0000;
* equip: AX after INT 11h (equipment word);
* reads: the stream of inp(0x3BA) results, indexed by read number;
* r55, rAA: the inp(0x3DD) results after writing 0x55 resp. 0xAA. -/
structure ProbeEnv where
  s1_al : Nat
  s1_bl : Nat
  s2_bl : Nat
  s2_bh : Nat
  pga_stat : Nat
  pga_cmd : Nat
  equip : Nat
  reads : Nat → Nat
  r55 : Nat
  rAA : Nat

/-- The state vid_init establishes: vid_adapter_type, vid_mono, vid_base,
plus two pieces of instrumentation the C code does not store but the model
records so that theorems can refer to them: the 3-bit Hercules card ID
that was read (when the retrace probe fired) and the sequence of values
written to port 3DD (when the ColorPlus probe ran). -/
structure VidResult where
  adapter_type : Nat
  mono : Bool
  base : Nat
  hercID : Option Nat := none
  writes3DD : List Nat := []
deriving DecidableEq

/-- vid_set: record type and mono flag; base is B000:0000 when mono,
B800:0000 otherwise (the far pointer values 0xB0000000 / 0xB8000000). -/
def vid_set (type : Nat) (mono : Bool) : VidResult :=
  { adapter_type := type, mono := mono,
    base := if mono then 0xB0000000 else 0xB8000000 }

/-- vid_set_ex: like vid_set but with an explicit base address (used for
the InColor, which sits at B000:0000 yet is a color adapter). -/
def vid_set_ex (type : Nat) (mono : Bool) (base : Nat) : VidResult :=
  { adapter_type := type, mono := mono, base := base }

/-- detect_pga: accept only if the status byte is not 0xFF, the command
byte is not 0xFF, and the status byte is at most 0x0F. -/
def detect_pga (s c : Nat) : Bool :=
  if s = 0xFF then false
  else if c = 0xFF then false
  else if s > 0x0F then false
  else true

/-- Step 1 of vid_init: INT 10h AH=1Ah display code switch.  AL must echo
0x1A; an unlisted display code falls through the switch to step 2. -/
def step_vgaquery (env : ProbeEnv) : Option VidResult :=
  if env.s1_al = 0x1A then
    match env.s1_bl with
    | 0x01 => some (vid_set VID_MDA true)
    | 0x02 => some (vid_set VID_CGA false)
    | 0x04 => some (vid_set VID_EGA false)
    | 0x05 => some (vid_set VID_EGA true)
    | 0x06 => some (vid_set VID_PGA false)
    | 0x07 => some (vid_set VID_VGA true)
    | 0x08 => some (vid_set VID_VGA false)
    | 0x0A => some (vid_set VID_MCGA false)
    | 0x0B => some (vid_set VID_MCGA true)
    | 0x0C => some (vid_set VID_MCGA false)
    | _ => none
  else none

/-- Step 2 of vid_init: INT 10h AH=12h BL=10h.  EGA present iff BL changed
from the 0x10 sentinel; BH distinguishes mono (nonzero) from color. -/
def step_ega (env : ProbeEnv) : Option VidResult :=
  if env.s2_bl ≠ 0x10 then some (vid_set VID_EGA (env.s2_bh != 0)) else none

/-- Step 3 of vid_init: the PGA communications-buffer probe. -/
def step_pga (env : ProbeEnv) : Option VidResult :=
  if detect_pga env.pga_stat env.pga_cmd then some (vid_set VID_PGA false)
  else none

/-- The Hercules retrace poll: for i = 0 .. fuel-1 read the status port
(read number idx+i) and stop at the first read whose bit 7 differs from
val, returning its read number; none if the bit never changed within the
fuel many iterations (the C loop runs i = 0 .. 32767). -/
def herc_find (reads : Nat → Nat) (val : Nat) : Nat → Nat → Option Nat
  | _, 0 => none
  | idx, fuel + 1 =>
    if reads idx &&& 0x80 ≠ val then some idx
    else herc_find reads val (idx + 1) fuel

/-- Step 5 of vid_init (the monochrome branch): sample bit 7 of port 3BA
(read number 0), poll it up to 32768 times (read numbers 1 ..); if it
toggled, read the card-ID field (bits 6-4) once more and classify
HGC+/InColor/Hercules; otherwise MDA. -/
def step_mono_branch (env : ProbeEnv) : VidResult :=
  match herc_find env.reads (env.reads 0 &&& 0x80) 1 32768 with
  | some idx =>
    match (env.reads (idx + 1) >>> 4) &&& 0x07 with
    | 1 => { vid_set VID_HERCPLUS true with hercID := some 1 }
    | 5 => { vid_set_ex VID_INCOLOR false 0xB0000000 with hercID := some 5 }
    | id => { vid_set VID_HERCULES true with hercID := some id }
  | none => vid_set VID_MDA true

/-- Step 6 of vid_init: the Plantronics ColorPlus probe on port 3DD.
Write 0x55 and read back; if it matched, write 0xAA and read back; if
both matched, restore 0x00 and classify ColorPlus; on any mismatch the
trailing outp restores 0x00 and the classification is plain CGA. -/
def step_colorplus (env : ProbeEnv) : VidResult :=
  if env.r55 = 0x55 then
    if env.rAA = 0xAA then
      { vid_set VID_COLORPLUS false with writes3DD := [0x55, 0xAA, 0x00] }
    else
      { vid_set VID_CGA false with writes3DD := [0x55, 0xAA, 0x00] }
  else
    { vid_set VID_CGA false with writes3DD := [0x55, 0x00] }

/-- Step 4 of vid_init: equipment word bits 4-5 = 11b selects the
monochrome branch (step 5), anything else the color branch (step 6). -/
def step_equip (env : ProbeEnv) : VidResult :=
  if (env.equip >>> 4) &&& 0x03 = 0x03 then step_mono_branch env
  else step_colorplus env

/-- vid_init: the ordered cascade; the first step that classifies
wins, steps 4-6 always classify. -/
def vid_init (env : ProbeEnv) : VidResult :=
  match step_vgaquery env with
  | some r => r
  | none =>
    match step_ega env with
    | some r => r
    | none =>
      match step_pga env with
      | some r => r
      | none => step_equip env

/-
======================  Memory-mapped output  ======================
vid_putc / vid_putsn / vid_fill / vid_hline / vid_vline / vid_box of
VIDEO.C lines 301-355 and 403-431, modelled by the trace of cells each
call writes, in program order.
-/

/-- One cell store: the byte offset of the cell inside the video buffer,
the character byte written at it, the attribute byte written after it. -/
structure Cell where
  off : Int
  ch : Nat
  attr : Nat
deriving DecidableEq

/-- The byte offset (row * VID_COLS + col) << 1 every writer computes. -/
def cellOff (row col : Int) : Int :=
  (row * VID_COLS + col) * 2

/-- vid_putc: one cell at (row, col); the attribute goes through
vid_map_attr when vid_mono is set (the source tests vid_mono and calls
vid_map_attr, which itself re-tests it). -/
def vid_putc (vid_mono : Bool) (row col : Int) (ch attr : Nat) : List Cell :=
  [{ off := cellOff row col, ch := ch % 256,
     attr := (if vid_mono then vid_map_attr vid_mono attr else attr) % 256 }]

/-- The loop of vid_fill: k cells of (ch, a) at offsets p, p+2, ... -/
def fill_go (ch a : Nat) (p : Int) : Nat → List Cell
  | 0 => []
  | k + 1 => { off := p, ch := ch, attr := a } :: fill_go ch a (p + 2) k

/-- vid_fill: count copies of one character/attribute pair at consecutive
cells; a non-positive count writes nothing (the C for loop runs 0 times). -/
def vid_fill (vid_mono : Bool) (row col : Int) (ch attr : Nat)
    (count : Int) : List Cell :=
  fill_go (ch % 256)
    ((if vid_mono then vid_map_attr vid_mono attr else attr) % 256)
    (cellOff row col) count.toNat

/-- vid_hline: n horizontal box-line glyphs via vid_fill. -/
def vid_hline (vid_mono : Bool) (row col n : Int) (attr : Nat) : List Cell :=
  vid_fill vid_mono row col VID_BOX_H attr n

/-- The loop of vid_vline: k vertical glyphs at rows row, row+1, ... -/
def vline_go (vid_mono : Bool) (col : Int) (attr : Nat) :
    Int → Nat → List Cell
  | _, 0 => []
  | row, k + 1 =>
    vid_putc vid_mono row col VID_BOX_V attr ++
      vline_go vid_mono col attr (row + 1) k

/-- vid_vline: n vertical box-line glyphs via vid_putc at rows
row .. row+n-1; a non-positive n writes nothing. -/
def vid_vline (vid_mono : Bool) (row col n : Int) (attr : Nat) : List Cell :=
  vline_go vid_mono col attr row n.toNat

/-- vid_box: four corners, two horizontal edges of length c2-c1-1, two
vertical edges of length r2-r1-1, in source order. -/
def vid_box (vid_mono : Bool) (r1 c1 r2 c2 : Int) (attr : Nat) : List Cell :=
  vid_putc vid_mono r1 c1 VID_BOX_TL attr ++
  vid_putc vid_mono r1 c2 VID_BOX_TR attr ++
  vid_putc vid_mono r2 c1 VID_BOX_BL attr ++
  vid_putc vid_mono r2 c2 VID_BOX_BR attr ++
  vid_hline vid_mono r1 (c1 + 1) (c2 - c1 - 1) attr ++
  vid_hline vid_mono r2 (c1 + 1) (c2 - c1 - 1) attr ++
  vid_vline vid_mono (r1 + 1) c1 (r2 - r1 - 1) attr ++
  vid_vline vid_mono (r1 + 1) c2 (r2 - r1 - 1) attr

/-- The loop of vid_putsn: k cells taking the next character of s while it
lasts and the space 0x20 once s is exhausted (the C code tests the
terminator byte; the list holds exactly the characters before it). -/
def putsn_go (a : Nat) : Int → List Nat → Nat → List Cell
  | _, _, 0 => []
  | p, [], k + 1 => { off := p, ch := 32, attr := a } :: putsn_go a (p + 2) [] k
  | p, c :: s, k + 1 =>
    { off := p, ch := c % 256, attr := a } :: putsn_go a (p + 2) s k

/-- vid_putsn: exactly n cells from (row, col): the characters of s, then
space padding; one mapped attribute throughout. -/
def vid_putsn (vid_mono : Bool) (row col : Int) (s : List Nat) (n : Int)
    (attr : Nat) : List Cell :=
  putsn_go ((if vid_mono then vid_map_attr vid_mono attr else attr) % 256)
    (cellOff row col) s n.toNat

/-
======================  Concrete probe scenarios  ======================
-/

/-- Scenario: the video state query succeeds with display code 0x07. -/
def envVGA : ProbeEnv :=
  { s1_al := 0x1A, s1_bl := 0x07, s2_bl := 0x10, s2_bh := 0,
    pga_stat := 0xFF, pga_cmd := 0xFF, equip := 0,
    reads := fun _ => 0, r55 := 0xFF, rAA := 0xFF }

/-- Scenario: state query fails, EGA sentinel unchanged, PGA status reads
0xFF, equipment bits 4-5 = 11b, the retrace bit toggles on the first poll
(read 0 gives 0x00, later reads 0xD0), and the card-ID field of the
follow-up read is (0xD0 >> 4) and 7 = 5. -/
def envInColor : ProbeEnv :=
  { s1_al := 0, s1_bl := 0, s2_bl := 0x10, s2_bh := 0,
    pga_stat := 0xFF, pga_cmd := 0, equip := 0x30,
    reads := fun n => if n = 0 then 0 else 0xD0, r55 := 0, rAA := 0 }

/-- Scenario: every earlier probe fails or rejects and port 3DD round-trips
both test patterns. -/
def envColorPlus : ProbeEnv :=
  { s1_al := 0, s1_bl := 0, s2_bl := 0x10, s2_bh := 0,
    pga_stat := 0xFF, pga_cmd := 0, equip := 0,
    reads := fun _ => 0, r55 := 0x55, rAA := 0xAA }

/-- Scenario: every probe fails or rejects, including both ColorPlus
round-trips; the terminal CGA fallback. -/
def envCGA : ProbeEnv :=
  { s1_al := 0, s1_bl := 0, s2_bl := 0x10, s2_bh := 0,
    pga_stat := 0xFF, pga_cmd := 0xFF, equip := 0,
    reads := fun _ => 0, r55 := 0xFF, rAA := 0xFF }

/-- The invariant every vid_init outcome satisfies: a type code below 10;
mono implies the mono buffer base; non-mono and non-InColor implies the
color buffer base; InColor is non-mono at the mono buffer base and is
reached only with card ID 5. -/
abbrev GoodResult (r : VidResult) : Prop :=
  r.adapter_type < 10 ∧
  (r.mono = true → r.base = 0xB0000000) ∧
  (r.mono = false → r.adapter_type ≠ VID_INCOLOR → r.base = 0xB8000000) ∧
  (r.adapter_type = VID_INCOLOR →
    r.mono = false ∧ r.base = 0xB0000000 ∧ r.hercID = some 5)

/-
==========================  Helper lemmas  ==========================
-/

theorem herc_find_lt (reads : Nat → Nat) (val : Nat) :
    ∀ fuel idx j, herc_find reads val idx fuel = some j →
      idx ≤ j ∧ j < idx + fuel := by
  intro fuel
  induction fuel with
  | zero => intro idx j h; simp [herc_find] at h
  | succ n ih =>
    intro idx j h
    rw [herc_find] at h
    split at h
    · cases h; omega
    · have := ih (idx + 1) j h; omega

theorem good_vid_set (t : Nat) (m : Bool) (h1 : t < 10)
    (h2 : t ≠ VID_INCOLOR) : GoodResult (vid_set t m) := by
  cases m
  · exact ⟨h1, by simp [vid_set], fun _ _ => rfl, fun ht => absurd ht h2⟩
  · exact ⟨h1, fun _ => rfl, by simp [vid_set], fun ht => absurd ht h2⟩

theorem good_step_vgaquery (env : ProbeEnv) (r : VidResult)
    (h : step_vgaquery env = some r) : GoodResult r := by
  unfold step_vgaquery at h
  split at h
  · split at h <;> first
      | exact Option.noConfusion h
      | (injection h with h; subst h; decide)
  · exact Option.noConfusion h

theorem good_step_ega (env : ProbeEnv) (r : VidResult)
    (h : step_ega env = some r) : GoodResult r := by
  unfold step_ega at h
  split at h
  · injection h with h; subst h
    exact good_vid_set _ _ (by decide) (by decide)
  · exact Option.noConfusion h

theorem good_step_pga (env : ProbeEnv) (r : VidResult)
    (h : step_pga env = some r) : GoodResult r := by
  unfold step_pga at h
  split at h
  · injection h with h; subst h; decide
  · exact Option.noConfusion h

theorem good_step_mono_branch (env : ProbeEnv) :
    GoodResult (step_mono_branch env) := by
  unfold step_mono_branch
  split
  · split
    · decide
    · decide
    · exact ⟨show VID_HERCULES < 10 by decide, fun _ => rfl,
        fun h _ => absurd h (show (true : Bool) ≠ false by decide),
        fun ht => absurd ht (show VID_HERCULES ≠ VID_INCOLOR by decide)⟩
  · decide

theorem good_step_colorplus (env : ProbeEnv) :
    GoodResult (step_colorplus env) := by
  unfold step_colorplus
  split
  · split <;> decide
  · decide

theorem vid_init_good (env : ProbeEnv) : GoodResult (vid_init env) := by
  unfold vid_init
  cases h1 : step_vgaquery env with
  | some r => exact good_step_vgaquery env r h1
  | none =>
    cases h2 : step_ega env with
    | some r => exact good_step_ega env r h2
    | none =>
      cases h3 : step_pga env with
      | some r => exact good_step_pga env r h3
      | none =>
        show GoodResult (step_equip env)
        unfold step_equip
        split
        · exact good_step_mono_branch env
        · exact good_step_colorplus env

theorem fill_go_length (ch a : Nat) :
    ∀ (k : Nat) (p : Int), (fill_go ch a p k).length = k := by
  intro k
  induction k with
  | zero => intro p; simp [fill_go]
  | succ n ih => intro p; simp [fill_go, ih]

theorem vline_go_length (m : Bool) (col : Int) (attr : Nat) :
    ∀ (k : Nat) (row : Int), (vline_go m col attr row k).length = k := by
  intro k
  induction k with
  | zero => intro row; simp [vline_go]
  | succ n ih => intro row; simp [vline_go, vid_putc, ih]

theorem putsn_go_length (a : Nat) :
    ∀ (k : Nat) (p : Int) (s : List Nat), (putsn_go a p s k).length = k := by
  intro k
  induction k with
  | zero => intro p s; cases s <;> simp [putsn_go]
  | succ n ih => intro p s; cases s <;> simp [putsn_go, ih]

theorem putsn_go_ch (a : Nat) :
    ∀ (k : Nat) (p : Int) (s : List Nat),
      (putsn_go a p s k).map Cell.ch =
        (s.map (· % 256)).take k ++ List.replicate (k - s.length) 32 := by
  intro k
  induction k with
  | zero => intro p s; cases s <;> simp [putsn_go]
  | succ n ih =>
    intro p s
    cases s with
    | nil => simp [putsn_go, ih, List.replicate_succ]
    | cons c s => simp [putsn_go, ih, Nat.succ_sub_succ]

theorem putsn_go_attr (a : Nat) :
    ∀ (k : Nat) (p : Int) (s : List Nat),
      ∀ cell ∈ putsn_go a p s k, cell.attr = a := by
  intro k
  induction k with
  | zero => intro p s cell h; cases s <;> simp [putsn_go] at h
  | succ n ih =>
    intro p s cell h
    cases s with
    | nil =>
      rw [putsn_go] at h
      rcases List.mem_cons.mp h with h | h
      · rw [h]
      · exact ih _ _ _ h
    | cons c s =>
      rw [putsn_go] at h
      rcases List.mem_cons.mp h with h | h
      · rw [h]
      · exact ih _ _ _ h

/-
==========================  Claim theorems  ==========================
-/

/-- Claim C1: vid_map_attr satisfies its contract for every 8-bit input:
with mono_flag false it is the identity on all 256 values; with mono_flag
true it equals the spec decomposition (blink bit 7, fg bits 0-3, bg bits
4-6; priorities fg=bg=0 to 0x00, bg nonzero to 0x70, intensity to 0x0F,
fg=1 to 0x01, else 0x07; blink ORed back). -/
theorem vid_map_attr_contract :
    ∀ attr : Nat, attr < 256 →
      vid_map_attr false attr = attr ∧
      vid_map_attr true attr = map_attr_spec attr := by
  decide

theorem vid_map_attr_contract_witness :
    (0x1C : Nat) < 256 ∧
      (vid_map_attr false 0x1C = 0x1C ∧
       vid_map_attr true 0x1C = map_attr_spec 0x1C) :=
  ⟨by decide, vid_map_attr_contract 0x1C (by decide)⟩

/-- Claim C4: under mono_flag true, vid_map_attr is idempotent on every
8-bit input and its output always lies in the ten-element monochrome set. -/
theorem vid_map_attr_idempotent_range :
    ∀ attr : Nat, attr < 256 →
      vid_map_attr true (vid_map_attr true attr) = vid_map_attr true attr ∧
      vid_map_attr true attr ∈
        [0x00, 0x01, 0x07, 0x0F, 0x70, 0x80, 0x81, 0x87, 0x8F, 0xF0] := by
  decide

theorem vid_map_attr_idempotent_range_witness :
    (0x34 : Nat) < 256 ∧
      (vid_map_attr true (vid_map_attr true 0x34) = vid_map_attr true 0x34 ∧
       vid_map_attr true 0x34 ∈
         [0x00, 0x01, 0x07, 0x0F, 0x70, 0x80, 0x81, 0x87, 0x8F, 0xF0]) :=
  ⟨by decide, vid_map_attr_idempotent_range 0x34 (by decide)⟩

/-- Claim C2: for every probe environment vid_init yields exactly one of
the ten adapter type codes (it is a total function, so detection always
terminates); the retrace poll stops at a read index bounded by the 32768
iteration ceiling; and when every probe fails or rejects the
classification is the CGA fallback. -/
theorem vid_init_terminates_classified :
    ∀ env : ProbeEnv,
      (vid_init env).adapter_type ∈
        [VID_MDA, VID_HERCULES, VID_CGA, VID_EGA, VID_VGA, VID_PGA,
         VID_MCGA, VID_HERCPLUS, VID_INCOLOR, VID_COLORPLUS] ∧
      (∀ idx, herc_find env.reads (env.reads 0 &&& 0x80) 1 32768 = some idx →
        idx ≤ 32768) ∧
      (step_vgaquery env = none → step_ega env = none → step_pga env = none →
        (env.equip >>> 4) &&& 0x03 ≠ 0x03 →
        ¬(env.r55 = 0x55 ∧ env.rAA = 0xAA) →
        (vid_init env).adapter_type = VID_CGA) := by
  intro env
  refine ⟨?_, ?_, ?_⟩
  · have h10 := (vid_init_good env).1
    have hmem : ∀ a : Nat, a < 10 →
        a ∈ [VID_MDA, VID_HERCULES, VID_CGA, VID_EGA, VID_VGA, VID_PGA,
             VID_MCGA, VID_HERCPLUS, VID_INCOLOR, VID_COLORPLUS] := by
      decide
    exact hmem _ h10
  · intro idx h
    have := herc_find_lt env.reads (env.reads 0 &&& 0x80) 32768 1 idx h
    omega
  · intro h1 h2 h3 h4 h5
    unfold vid_init
    rw [h1, h2, h3]
    show (step_equip env).adapter_type = VID_CGA
    unfold step_equip
    rw [if_neg h4]
    unfold step_colorplus
    rcases Decidable.em (env.r55 = 0x55) with hr | hr
    · rw [if_pos hr]
      have hA : ¬env.rAA = 0xAA := fun hA => h5 ⟨hr, hA⟩
      rw [if_neg hA]
      rfl
    · rw [if_neg hr]
      rfl

theorem vid_init_terminates_classified_witness :
    (vid_init envCGA).adapter_type = VID_CGA ∧ (1 : Nat) ≤ 32768 :=
  ⟨(vid_init_terminates_classified envCGA).2.2 (by decide) (by decide)
      (by decide) (by decide) (by decide),
   (vid_init_terminates_classified envInColor).2.1 1 (by decide)⟩

/-- Claim C5: the three literal detection scenarios: display code 0x07
gives VGA with the mono flag set; the InColor environment (state query
fails, EGA sentinel unchanged, PGA status 0xFF, equipment bits 11b,
retrace toggling, card ID 5) gives InColor, non-mono, at the mono buffer
base; the all-probes-fail environment whose 3DD port round-trips both
patterns gives ColorPlus, non-mono, with the port left restored to 0x00. -/
theorem vid_init_scenarios :
    ((vid_init envVGA).adapter_type = VID_VGA ∧
      (vid_init envVGA).mono = true) ∧
    ((vid_init envInColor).adapter_type = VID_INCOLOR ∧
      (vid_init envInColor).mono = false ∧
      (vid_init envInColor).base = 0xB0000000) ∧
    ((vid_init envColorPlus).adapter_type = VID_COLORPLUS ∧
      (vid_init envColorPlus).mono = false ∧
      (vid_init envColorPlus).writes3DD.getLast? = some 0x00) := by
  decide

/-- Claim C6: over every outcome of vid_init, a set mono flag implies the
mono buffer base; a clear mono flag with the mono buffer base happens
only for InColor; InColor is reached only with Hercules card ID 5; every
other non-mono classification uses the color buffer base. -/
theorem vid_init_mono_base_invariant :
    ∀ env : ProbeEnv,
      ((vid_init env).mono = true → (vid_init env).base = 0xB0000000) ∧
      ((vid_init env).mono = false → (vid_init env).base = 0xB0000000 →
        (vid_init env).adapter_type = VID_INCOLOR) ∧
      ((vid_init env).adapter_type = VID_INCOLOR →
        (vid_init env).mono = false ∧ (vid_init env).base = 0xB0000000 ∧
        (vid_init env).hercID = some 5) ∧
      ((vid_init env).mono = false →
        (vid_init env).adapter_type ≠ VID_INCOLOR →
        (vid_init env).base = 0xB8000000) := by
  intro env
  obtain ⟨h1, h2, h3, h4⟩ := vid_init_good env
  refine ⟨h2, ?_, h4, h3⟩
  intro hm hb
  by_contra hne
  have := h3 hm hne
  omega

theorem vid_init_mono_base_invariant_witness :
    (vid_init envInColor).mono = false ∧
      (vid_init envInColor).base = 0xB0000000 ∧
      (vid_init envInColor).hercID = some 5 :=
  (vid_init_mono_base_invariant envInColor).2.2.1 (by decide)

/-- Claim C7: detect_pga accepts exactly when the status byte is not
0xFF, the command byte is not 0xFF, and the status byte is at most 0x0F;
on rejection step 3 classifies nothing and the cascade continues with the
equipment-word branch. -/
theorem detect_pga_accept_iff :
    (∀ s c : Nat, detect_pga s c = true ↔
      s ≠ 0xFF ∧ c ≠ 0xFF ∧ s ≤ 0x0F) ∧
    (∀ env : ProbeEnv, detect_pga env.pga_stat env.pga_cmd = false →
      step_pga env = none ∧
      (step_vgaquery env = none → step_ega env = none →
        vid_init env = step_equip env)) := by
  constructor
  · intro s c
    unfold detect_pga
    split_ifs with hs hc hgt
    · simp [hs]
    · simp [hc]
    · simp only [Bool.false_eq_true, false_iff]
      intro h
      omega
    · simp only [true_iff]
      exact ⟨hs, hc, by omega⟩
  · intro env h
    have hp : step_pga env = none := by simp [step_pga, h]
    refine ⟨hp, ?_⟩
    intro h1 h2
    unfold vid_init
    rw [h1, h2, hp]

theorem detect_pga_accept_iff_witness :
    step_pga envCGA = none ∧ vid_init envCGA = step_equip envCGA :=
  ⟨(detect_pga_accept_iff.2 envCGA (by decide)).1,
   (detect_pga_accept_iff.2 envCGA (by decide)).2 (by decide) (by decide)⟩

/-- Claim C8: the ColorPlus probe classifies ColorPlus exactly when both
port 3DD round-trips succeed, otherwise plain CGA; the first value
written is the 0x55 test pattern and the last value written is always the
0x00 restore, on the success path and on every failure path; and when
steps 1-5 all fail to classify, vid_init is exactly this probe. -/
theorem colorplus_probe_iff :
    ∀ env : ProbeEnv,
      ((step_colorplus env).adapter_type = VID_COLORPLUS ↔
        env.r55 = 0x55 ∧ env.rAA = 0xAA) ∧
      ((step_colorplus env).adapter_type = VID_COLORPLUS ∨
        (step_colorplus env).adapter_type = VID_CGA) ∧
      (step_colorplus env).writes3DD.head? = some 0x55 ∧
      (step_colorplus env).writes3DD.getLast? = some 0x00 ∧
      (step_vgaquery env = none → step_ega env = none → step_pga env = none →
        (env.equip >>> 4) &&& 0x03 ≠ 0x03 →
        vid_init env = step_colorplus env) := by
  intro env
  refine ⟨?_, ?_, ?_, ?_, ?_⟩
  · unfold step_colorplus
    split_ifs <;> simp_all [vid_set, VID_COLORPLUS, VID_CGA]
  · unfold step_colorplus
    split_ifs <;> simp [vid_set]
  · unfold step_colorplus
    split_ifs <;> rfl
  · unfold step_colorplus
    split_ifs <;> rfl
  · intro h1 h2 h3 h4
    unfold vid_init
    rw [h1, h2, h3]
    show step_equip env = step_colorplus env
    unfold step_equip
    rw [if_neg h4]

theorem colorplus_probe_iff_witness :
    (step_colorplus envColorPlus).adapter_type = VID_COLORPLUS ∧
      vid_init envColorPlus = step_colorplus envColorPlus :=
  ⟨(colorplus_probe_iff envColorPlus).1.mpr ⟨rfl, rfl⟩,
   (colorplus_probe_iff envColorPlus).2.2.2.2 (by decide) (by decide)
      (by decide) (by decide)⟩

/-- Counterexample to claim C3 as stated: for box(2,2,5,10,attr) the
vertical edge length is r2-r1-1 = 5-2-1 = 2, so the two vertical edges
write 2*2 = 4 cells, not the claimed 2*(5-2-1) = 6, and the whole box
writes 4+14+4 = 22 cells, not 28 (the claimed 24 non-corner cells plus 4
corners). -/
theorem vid_box_2_2_5_10_claim_false :
    ¬((vid_vline false 3 2 (5 - 2 - 1 : Int) 0x07).length +
        (vid_vline false 3 10 (5 - 2 - 1 : Int) 0x07).length = 6 ∧
      (vid_box false 2 2 5 10 0x07).length = 28) := by
  decide

/-- Claim C3 (amended): box(2,2,5,10,attr) writes the 4 corner cells, two
horizontal edges of 10-2-1 = 7 cells each (14 horizontal-edge cells), and
two vertical edges of 5-2-1 = 2 cells each (4 vertical-edge cells): 18
non-corner cells plus the 4 corners, 22 cells in all. -/
theorem vid_box_2_2_5_10_counts :
    ∀ (m : Bool) (attr : Nat),
      vid_box m 2 2 5 10 attr =
        vid_putc m 2 2 VID_BOX_TL attr ++ vid_putc m 2 10 VID_BOX_TR attr ++
        vid_putc m 5 2 VID_BOX_BL attr ++ vid_putc m 5 10 VID_BOX_BR attr ++
        vid_hline m 2 3 7 attr ++ vid_hline m 5 3 7 attr ++
        vid_vline m 3 2 2 attr ++ vid_vline m 3 10 2 attr ∧
      (vid_putc m 2 2 VID_BOX_TL attr).length = 1 ∧
      (vid_hline m 2 3 7 attr).length = 7 ∧
      (vid_hline m 5 3 7 attr).length = 7 ∧
      (vid_vline m 3 2 2 attr).length = 2 ∧
      (vid_vline m 3 10 2 attr).length = 2 ∧
      (vid_box m 2 2 5 10 attr).length = 22 := by
  intro m attr
  have hh : ∀ (row col : Int), (vid_hline m row col 7 attr).length = 7 := by
    intro row col
    simp [vid_hline, vid_fill, fill_go_length]
  have hv : ∀ (row col : Int), (vid_vline m row col 2 attr).length = 2 := by
    intro row col
    simp [vid_vline, vline_go_length]
  refine ⟨by norm_num [vid_box], rfl, hh _ _, hh _ _, hv _ _, hv _ _, ?_⟩
  simp [vid_box, vid_putc, vid_hline, vid_fill, fill_go_length,
    vid_vline, vline_go_length]

/-- Claim C9: vid_putsn writes exactly n cells from (row, col): the
characters of s while it lasts, then spaces, truncating s past n, all
with the single mapped attribute; on the string AB with n = 5 the five
characters written are A, B, space, space, space. -/
theorem vid_putsn_exact :
    ∀ (m : Bool) (row col : Int) (s : List Nat) (n : Int) (attr : Nat),
      (vid_putsn m row col s n attr).length = n.toNat ∧
      (vid_putsn m row col s n attr).map Cell.ch =
        (s.map (· % 256)).take n.toNat ++
          List.replicate (n.toNat - s.length) 32 ∧
      (∀ cell ∈ vid_putsn m row col s n attr,
        cell.attr = (if m then vid_map_attr m attr else attr) % 256) ∧
      (vid_putsn m row col [65, 66] 5 attr).map Cell.ch =
        [65, 66, 32, 32, 32] := by
  intro m row col s n attr
  refine ⟨putsn_go_length _ _ _ _, putsn_go_ch _ _ _ _,
    putsn_go_attr _ _ _ _, ?_⟩
  rw [vid_putsn, putsn_go_ch]
  decide

/-- Claim C10: when both box preconditions fail (r2 at most r1 and c2 at
most c1), both edge lengths are non-positive, every edge hline/vline call
writes zero cells, and the box writes exactly the 4 unconditional corner
cells. -/
theorem vid_box_degenerate_noop :
    ∀ (m : Bool) (r1 c1 r2 c2 : Int) (attr : Nat),
      r2 ≤ r1 → c2 ≤ c1 →
      (c2 - c1 - 1 ≤ 0 ∧ r2 - r1 - 1 ≤ 0) ∧
      vid_hline m r1 (c1 + 1) (c2 - c1 - 1) attr = [] ∧
      vid_hline m r2 (c1 + 1) (c2 - c1 - 1) attr = [] ∧
      vid_vline m (r1 + 1) c1 (r2 - r1 - 1) attr = [] ∧
      vid_vline m (r1 + 1) c2 (r2 - r1 - 1) attr = [] ∧
      vid_box m r1 c1 r2 c2 attr =
        vid_putc m r1 c1 VID_BOX_TL attr ++ vid_putc m r1 c2 VID_BOX_TR attr ++
        vid_putc m r2 c1 VID_BOX_BL attr ++ vid_putc m r2 c2 VID_BOX_BR attr ∧
      (vid_box m r1 c1 r2 c2 attr).length = 4 := by
  intro m r1 c1 r2 c2 attr hr hc
  have hcn : (c2 - c1 - 1).toNat = 0 := Int.toNat_of_nonpos (by omega)
  have hrn : (r2 - r1 - 1).toNat = 0 := Int.toNat_of_nonpos (by omega)
  have hH : ∀ (row col : Int),
      vid_hline m row col (c2 - c1 - 1) attr = [] := by
    intro row col
    simp [vid_hline, vid_fill, hcn, fill_go]
  have hV : ∀ (row col : Int),
      vid_vline m row col (r2 - r1 - 1) attr = [] := by
    intro row col
    simp [vid_vline, hrn, vline_go]
  have hbox : vid_box m r1 c1 r2 c2 attr =
      vid_putc m r1 c1 VID_BOX_TL attr ++ vid_putc m r1 c2 VID_BOX_TR attr ++
      vid_putc m r2 c1 VID_BOX_BL attr ++ vid_putc m r2 c2 VID_BOX_BR attr := by
    simp [vid_box, hH, hV]
  refine ⟨⟨by omega, by omega⟩, hH _ _, hH _ _, hV _ _, hV _ _, hbox, ?_⟩
  rw [hbox]
  simp [vid_putc]

theorem vid_box_degenerate_noop_witness :
    ((3 : Int) ≤ 3 ∧ (2 : Int) ≤ 4) ∧
      (vid_box true 3 4 3 2 0x1F).length = 4 :=
  ⟨⟨by decide, by decide⟩,
   (vid_box_degenerate_noop true 3 4 3 2 0x1F (by decide) (by decide)).2.2.2.2.2.2⟩
